import Mathlib

/-!
Verification of the Flow engine core state machine.

Shallow embedding of the session / tri-layer detection / intervention logic of
`src/backend/main.py` (class `FlowState` and the handlers operating on it) and of
`src/backend/blocker.py` (`FlowBlocker.show`).  Timestamps are modelled as integer
seconds, Python floats holding score values as rationals, and Python `int` as `Int`.
-/

/-- Python `str.lower()` (ASCII is all the configs use). -/
def lowerStr (s : String) : String := ⟨s.data.map Char.toLower⟩

/-- Character-list version of "`pat` occurs at the start". -/
def charListStarts : List Char → List Char → Bool
  | [], _ => true
  | _ :: _, [] => false
  | a :: as, b :: bs => a == b && charListStarts as bs

/-- Character-list version of Python's substring test `pat in s`. -/
def charListHasSub (pat : List Char) : List Char → Bool
  | [] => pat.isEmpty
  | c :: rest => charListStarts pat (c :: rest) || charListHasSub pat rest

/-- Python `pat in s` on strings (substring containment). -/
def strHasSub (s pat : String) : Bool := charListHasSub pat.data s.data

/-- Python truthiness of an `Optional[str]`: `None` and `""` are falsy. -/
def optStrTruthy : Option String → Bool
  | none => false
  | some s => !s.isEmpty

/-- The configuration keys the core consumes (`state.config` in `main.py`). -/
structure Config where
  productive_keywords : List String
  distracting_keywords : List String
  blocked_apps : List String
deriving DecidableEq, Repr

/-- The default keyword lists hardcoded in `on_window_change` /
`record_browser_activity` (`main.py` lines 366-410, 852). -/
def defaultCfg : Config :=
  { productive_keywords := ["code", "visual studio", "docs"]
    distracting_keywords := ["netflix", "twitter", "facebook", "instagram", "reddit", "steam"]
    blocked_apps := ["valorant.exe", "league of legends.exe", "csgo.exe", "steam.exe", "discord.exe"] }

/-- The fields of `FlowState` (`main.py` lines 87-129) that the core session /
detection / scoring logic reads and writes, plus `FlowBlocker.active`
(`blocker.py`).  Timestamps are integer seconds (`datetime.now()` snapshots),
float-valued scores are rationals. -/
structure FlowState where
  is_running : Bool
  start_time : Option Int
  current_focus_score : ℚ
  last_browser_url : String
  pending_close_tab : Bool
  distraction_count : Int
  resilience_score : Int
  stamina_score : Int
  fatigue_score : ℚ
  baseline_apm : ℚ
  active_window_title : String
  current_distracting_app : Option String
  distracting_start_time : Option Int
  last_decay_check : Option Int
  layer1_productive_start : Option Int
  layer2_last_distraction : Option Int
  active_streak_start : Option Int
  flow_detection_threshold_seconds : Int
  blocker_active : Bool
deriving DecidableEq, Repr

/-- Model of `FlowState.__init__` (`main.py` lines 88-129) together with
`FlowBlocker.__init__`'s `active = False`. -/
def FlowState.init : FlowState :=
  { is_running := false
    start_time := none
    current_focus_score := 100
    last_browser_url := ""
    pending_close_tab := false
    distraction_count := 0
    resilience_score := 0
    stamina_score := 0
    fatigue_score := 0
    baseline_apm := 0
    active_window_title := "Unknown"
    current_distracting_app := none
    distracting_start_time := none
    last_decay_check := none
    layer1_productive_start := none
    layer2_last_distraction := none
    active_streak_start := none
    flow_detection_threshold_seconds := 600
    blocker_active := false }

/-- Model of `FlowBlocker.show` (`blocker.py` lines 171-186): a no-op while the overlay is
already active.  Returns whether a (new) overlay was shown. -/
def blockerShow (s : FlowState) : Bool × FlowState :=
  if s.blocker_active then (false, s)
  else (true, { s with blocker_active := true })

/-- Model of `trigger_intervention` (`main.py` lines 427-437): increments the distraction
count and asks the blocker to show.  Returns whether an overlay was shown. -/
def triggerIntervention (s : FlowState) : Bool × FlowState :=
  blockerShow { s with distraction_count := s.distraction_count + 1 }

/-- Layer-1 predicate of `_check_and_auto_start_flow` (`main.py` lines 654-664). -/
def layer1Active (s : FlowState) (now : Int) : Bool :=
  match s.layer1_productive_start with
  | none => false
  | some t => decide (now - t ≥ s.flow_detection_threshold_seconds)

/-- Layer-2 predicate of `_check_and_auto_start_flow` (`main.py` lines 666-677). -/
def layer2Active (s : FlowState) (now : Int) : Bool :=
  match s.layer2_last_distraction with
  | none => true
  | some t => decide (now - t ≥ s.flow_detection_threshold_seconds)

/-- Layer-3 predicate of `_check_and_auto_start_flow` (`main.py` lines 679-689). -/
def layer3Active (s : FlowState) (now : Int) : Bool :=
  match s.active_streak_start with
  | none => false
  | some t => decide (now - t ≥ s.flow_detection_threshold_seconds)

/-- Model of `_auto_start_flow` (`main.py` lines 623-645): guarded session start that also
resets the tri-layer timers.  (The Supabase/local-DB/DND side effects touch no
modelled state.) -/
def autoStartFlow (s : FlowState) (now : Int) : FlowState :=
  if s.is_running then s
  else
    { s with is_running := true
             start_time := some now
             distraction_count := 0
             resilience_score := 0
             stamina_score := 0
             fatigue_score := 0
             baseline_apm := 0
             layer1_productive_start := none
             layer2_last_distraction := none
             active_streak_start := none }

/-- Model of `_check_and_auto_start_flow` (`main.py` lines 647-696). -/
def checkAndAutoStartFlow (s : FlowState) (now : Int) : FlowState :=
  if s.is_running then s
  else if layer1Active s now && layer2Active s now && layer3Active s now then
    autoStartFlow s now
  else s

/-- Model of `on_window_change` (`main.py` lines 353-425).  Returns the new state and
whether a blocker overlay was shown.  The auto-start check spawned on the event
loop is modelled as running synchronously at the same instant. -/
def onWindowChange (cfg : Config) (s : FlowState) (title process_name : String)
    (now : Int) : FlowState × Bool :=
  let s0 := { s with active_window_title := title }
  let t := lowerStr title
  let p := lowerStr process_name
  let is_productive := cfg.productive_keywords.any (fun k => strHasSub t k)
  let is_distraction := cfg.distracting_keywords.any (fun k => strHasSub t k)
  if s0.is_running = false then
    let s1 :=
      if is_productive then
        if s0.layer1_productive_start = none then
          { s0 with layer1_productive_start := some now }
        else s0
      else { s0 with layer1_productive_start := none }
    (checkAndAutoStartFlow s1 now, false)
  else
    if p ∈ cfg.blocked_apps.map lowerStr then
      let r := triggerIntervention s0
      (r.2, r.1)
    else
      let s1 :=
        if is_productive && optStrTruthy s0.current_distracting_app then
          { s0 with current_distracting_app := none
                    distracting_start_time := none
                    last_decay_check := none }
        else s0
      if is_distraction && s1.is_running then
        let r := triggerIntervention s1
        (r.2, r.1)
      else (s1, false)

/-- Model of `handle_resume` (`main.py` lines 296-315): the "WAIT FOR BREAK" choice. -/
def handleResume (s : FlowState) : FlowState :=
  { s with resilience_score := s.resilience_score + 5
           stamina_score := s.stamina_score + 10
           current_focus_score := min 100 (s.current_focus_score + 5)
           current_distracting_app := none
           distracting_start_time := none
           pending_close_tab := if s.last_browser_url.isEmpty then s.pending_close_tab else true }

/-- Model of `handle_break` (`main.py` lines 317-338): the "OPEN ANYWAY" choice. -/
def handleBreak (s : FlowState) (app_name url : Option String) (now : Int) : FlowState :=
  let target :=
    if optStrTruthy app_name then app_name.getD ""
    else if optStrTruthy url then url.getD ""
    else s.active_window_title
  { s with resilience_score := max 0 (s.resilience_score - 10)
           current_focus_score := max 0 (s.current_focus_score - 15)
           current_distracting_app := some target
           distracting_start_time := some now
           last_decay_check := some now
           blocker_active := false }

/-- One iteration of the body of `_track_resilience_decay` (`main.py` lines
729-757), i.e. what a single once-per-minute decay tick does at time `now`. -/
def decayTick (s : FlowState) (now : Int) : FlowState :=
  if s.is_running = false then s
  else if optStrTruthy s.current_distracting_app && s.distracting_start_time.isSome then
    match s.last_decay_check with
    | some last =>
        if now - last ≥ 60 then
          { s with resilience_score := max 0 (s.resilience_score - Int.fdiv (now - last) 60)
                   last_decay_check := some now }
        else s
    | none => { s with last_decay_check := some now }
  else s

/-- Result record of `apply_forceful_termination_penalty`. -/
structure PenaltyResult where
  penalty_amount : Int
  new_resilience_score : Int
deriving DecidableEq, Repr

/-- Model of `apply_forceful_termination_penalty` (`main.py` lines 1089-1118).  (The
user-stats DB write touches no modelled state.) -/
def applyForcefulTerminationPenalty (s : FlowState) (penalty_amount : Int) :
    PenaltyResult × FlowState :=
  let s' := { s with resilience_score := max 0 (s.resilience_score - penalty_amount) }
  (⟨penalty_amount, s'.resilience_score⟩, s')

/-- Response of `start_session`. -/
inductive StartResult
  | already_running
  | started
deriving DecidableEq, Repr

/-- Model of `start_session` (`main.py` lines 891-926).  (Supabase/local-DB/notification
side effects touch no modelled state.) -/
def startSession (s : FlowState) (now : Int) : StartResult × FlowState :=
  if s.is_running then (.already_running, s)
  else
    (.started,
     { s with is_running := true
              start_time := some now
              distraction_count := 0
              resilience_score := 0
              stamina_score := 0
              fatigue_score := 0
              baseline_apm := 0 })

/-- The `xp_breakdown` dictionary computed by `stop_session`. -/
structure XpBreakdown where
  base : Int
  resilience : Int
  stamina : Int
  focus : Int
  penalty : Int
deriving DecidableEq, Repr

/-- Response of `stop_session`. -/
inductive StopResult
  | not_running
  | stopped (duration : Int) (xp_earned : Int) (breakdown : XpBreakdown)
deriving DecidableEq, Repr

/-- Model of `stop_session` (`main.py` lines 928-1059): the XP computation and the state
mutation (`is_running := false`).  Python's `//` is floor division, hence
`Int.fdiv`; `int(max(0, f) // 10)` on the nonnegative float is `⌊max 0 f / 10⌋`.
A running state always carries a start time; the embedding totalizes the missing
case with `getD now` (duration 0). -/
def stopSession (s : FlowState) (now : Int) : StopResult × FlowState :=
  if s.is_running = false then (.not_running, s)
  else
    let duration := now - s.start_time.getD now
    let minutes := max 0 (Int.fdiv duration 60)
    let base_xp := minutes * 5
    let resilience_bonus := s.resilience_score
    let stamina_bonus := s.stamina_score
    let focus_bonus := ⌊(max 0 s.current_focus_score) / 10⌋
    let distraction_penalty := s.distraction_count * 0
    let xp := base_xp + resilience_bonus + stamina_bonus + focus_bonus - distraction_penalty
    (.stopped duration xp
       ⟨base_xp, resilience_bonus, stamina_bonus, focus_bonus, distraction_penalty⟩,
     { s with is_running := false })

/-- Response statuses of `record_browser_activity`. -/
inductive BrowserStatus
  | ignored
  | wait_for_break
  | intervention_triggered
  | recorded
deriving DecidableEq, Repr

/-- Model of `record_browser_activity` (`main.py` lines 837-857). -/
def recordBrowserActivity (cfg : Config) (s : FlowState) (url : String) :
    BrowserStatus × FlowState :=
  if s.is_running = false then (.ignored, s)
  else
    let s1 := { s with last_browser_url := url }
    if s1.pending_close_tab then (.wait_for_break, { s1 with pending_close_tab := false })
    else if cfg.distracting_keywords.any (fun d => strHasSub url d) then
      (.intervention_triggered, (triggerIntervention s1).2)
    else (.recorded, s1)

/-- Projection: the focus component of a `stop_session` breakdown, when any. -/
def stopFocusBonus : StopResult → Option Int
  | .not_running => none
  | .stopped _ _ bd => some bd.focus

/-! ## Concrete states used by witnesses and counterexamples -/

/-- Scenario E of the spec: 25-minute session, resilience 20, stamina 30, focus 85. -/
def scenarioE : FlowState :=
  { FlowState.init with
      is_running := true
      start_time := some 0
      resilience_score := 20
      stamina_score := 30
      current_focus_score := 85 }

/-- A running session started at time 0 with otherwise-initial state. -/
def runningState : FlowState :=
  { FlowState.init with
      is_running := true
      start_time := some 0 }

/-- Helper: `Int.fdiv` of nonnegative integers is nonnegative. -/
theorem fdiv_nonneg_of_nonneg {d : Int} (h : 0 ≤ d) : 0 ≤ Int.fdiv d 60 := by
  rw [Int.fdiv_eq_ediv _ (by norm_num)]
  exact Int.ediv_nonneg h (by norm_num)

/-- C1: stopping a running session with start time `t0` at time `now` earns
`⌊d/60⌋*5 + resilience + stamina + ⌊max 0 focus / 10⌋ - 0` XP for duration
`d = now - t0`, and the breakdown reports exactly these components with
penalty 0. -/
theorem C1_stop_session_xp (s : FlowState) (now t0 : Int)
    (hrun : s.is_running = true) (hstart : s.start_time = some t0) (hd : t0 ≤ now) :
    stopSession s now =
      (StopResult.stopped (now - t0)
        (Int.fdiv (now - t0) 60 * 5 + s.resilience_score + s.stamina_score
          + ⌊max 0 s.current_focus_score / 10⌋ - 0)
        ⟨Int.fdiv (now - t0) 60 * 5, s.resilience_score, s.stamina_score,
          ⌊max 0 s.current_focus_score / 10⌋, 0⟩,
       { s with is_running := false }) := by
  have h0 : (0 : Int) ≤ now - t0 := by omega
  have hq : max 0 (Int.fdiv (now - t0) 60) = Int.fdiv (now - t0) 60 :=
    max_eq_right (fdiv_nonneg_of_nonneg h0)
  simp [stopSession, hrun, hstart, hq, mul_zero]

/-- Witness for C1 at Scenario E: duration 1500 s, resilience 20, stamina 30,
focus 85 gives XP 183 with breakdown 125/20/30/8/0. -/
theorem C1_stop_session_xp_witness :
    stopSession scenarioE 1500 =
      (StopResult.stopped 1500 183 ⟨125, 20, 30, 8, 0⟩,
       { scenarioE with is_running := false }) := by
  have h := C1_stop_session_xp scenarioE 1500 0 rfl rfl (by norm_num)
  have hf : ⌊max 0 scenarioE.current_focus_score / 10⌋ = 8 := by
    show ⌊max 0 (85 : ℚ) / 10⌋ = 8
    norm_num
  rw [h, hf]
  decide

/-- C2: the auto-start check is a no-op while a session runs (no double start),
is a no-op when any of the three layer predicates is false, and only ever
transitions Idle to Running when all three predicates hold at the instant of
the check. -/
theorem C2_auto_start_guard (s : FlowState) (now : Int) :
    (s.is_running = true → checkAndAutoStartFlow s now = s) ∧
    (s.is_running = false →
      ((layer1Active s now && layer2Active s now && layer3Active s now) = false →
        checkAndAutoStartFlow s now = s) ∧
      ((checkAndAutoStartFlow s now).is_running = true →
        layer1Active s now = true ∧ layer2Active s now = true ∧
          layer3Active s now = true)) := by
  unfold checkAndAutoStartFlow autoStartFlow
  cases hb : s.is_running
  · simp only [Bool.false_eq_true, if_false, hb]
    constructor
    · intro h; cases h
    · intro _
      cases h1 : layer1Active s now <;> cases h2 : layer2Active s now <;>
        cases h3 : layer3Active s now <;> simp_all
  · simp [hb]

/-- Witness for C2: on an idle initial state (no layer-1 timer), the check at
time 700 leaves the state unchanged. -/
theorem C2_auto_start_guard_witness :
    FlowState.init.is_running = false ∧
      checkAndAutoStartFlow FlowState.init 700 = FlowState.init := by
  refine ⟨rfl, ?_⟩
  exact ((C2_auto_start_guard FlowState.init 700).2 rfl).1 (by decide)

/-- C3: exhibit (code bug) — a window event with a distracting title during a
running session routes to the intervention controller (an overlay is shown),
yet the Layer-2 last-distraction timestamp is left at `none` instead of being
set to the current time: no code path ever assigns it. -/
theorem C3_layer2_never_recorded :
    (onWindowChange defaultCfg runningState "Netflix - Home" "chrome.exe" 500).2 = true ∧
      (onWindowChange defaultCfg runningState "Netflix - Home" "chrome.exe"
        500).1.layer2_last_distraction = none := by
  decide

/-- An idle state in which all three tri-layer timers are set. -/
def timersSetState : FlowState :=
  { FlowState.init with
      layer1_productive_start := some 5
      layer2_last_distraction := some 7
      active_streak_start := some 9 }

/-- C4 counterexample: a successful manual `start_session` leaves all three
TriLayerState timers exactly as they were instead of resetting them to null. -/
theorem C4_counterexample :
    (startSession timersSetState 100).1 = StartResult.started ∧
      (startSession timersSetState 100).2.layer1_productive_start = some 5 ∧
      (startSession timersSetState 100).2.layer2_last_distraction = some 7 ∧
      (startSession timersSetState 100).2.active_streak_start = some 9 := by
  decide

/-- C4 (amended): a successful manual `start_session` resets distraction count,
resilience, stamina, fatigue and baseline APM but leaves the three TriLayerState
timers unchanged; only the auto-start path additionally resets the three timers
to null. -/
theorem C4_start_reset_amended (s : FlowState) (now : Int) (h : s.is_running = false) :
    ((startSession s now).1 = StartResult.started ∧
      (startSession s now).2.distraction_count = 0 ∧
      (startSession s now).2.resilience_score = 0 ∧
      (startSession s now).2.stamina_score = 0 ∧
      (startSession s now).2.fatigue_score = 0 ∧
      (startSession s now).2.baseline_apm = 0 ∧
      (startSession s now).2.layer1_productive_start = s.layer1_productive_start ∧
      (startSession s now).2.layer2_last_distraction = s.layer2_last_distraction ∧
      (startSession s now).2.active_streak_start = s.active_streak_start) ∧
    ((autoStartFlow s now).layer1_productive_start = none ∧
      (autoStartFlow s now).layer2_last_distraction = none ∧
      (autoStartFlow s now).active_streak_start = none ∧
      (autoStartFlow s now).distraction_count = 0 ∧
      (autoStartFlow s now).resilience_score = 0 ∧
      (autoStartFlow s now).stamina_score = 0 ∧
      (autoStartFlow s now).fatigue_score = 0 ∧
      (autoStartFlow s now).baseline_apm = 0) := by
  simp [startSession, autoStartFlow, h]

/-- Witness for the amended C4 at a concrete idle state with all timers set. -/
theorem C4_start_reset_amended_witness :
    timersSetState.is_running = false ∧
      (startSession timersSetState 100).2.layer1_productive_start = some 5 ∧
      (autoStartFlow timersSetState 100).layer1_productive_start = none := by
  have h := C4_start_reset_amended timersSetState 100 rfl
  exact ⟨rfl, h.1.2.2.2.2.2.2.1.trans rfl, h.2.1⟩

/-- Score invariant of the spec: resilience is a nonnegative integer and the
focus score lies within `[0, 100]`. -/
def ScoreInv (s : FlowState) : Prop :=
  0 ≤ s.resilience_score ∧ 0 ≤ s.current_focus_score ∧ s.current_focus_score ≤ 100

/-- C5: every mutating operation — the two intervention-choice handlers, the
decay tick, the external penalty endpoint and both session-start paths —
preserves the score invariant (resilience ≥ 0, focus in [0, 100]). -/
theorem C5_score_bounds (s : FlowState) (a u : Option String) (now amt : Int)
    (h : ScoreInv s) :
    ScoreInv (handleResume s) ∧ ScoreInv (handleBreak s a u now) ∧
      ScoreInv (decayTick s now) ∧
      ScoreInv (applyForcefulTerminationPenalty s amt).2 ∧
      ScoreInv (startSession s now).2 ∧ ScoreInv (autoStartFlow s now) := by
  obtain ⟨hr, hf0, hf1⟩ := h
  refine ⟨⟨?_, ?_, ?_⟩, ⟨?_, ?_, ?_⟩, ?_, ?_, ?_, ?_⟩
  · show 0 ≤ s.resilience_score + 5
    omega
  · show 0 ≤ min 100 (s.current_focus_score + 5)
    exact le_min (by norm_num) (by linarith)
  · show min 100 (s.current_focus_score + 5) ≤ 100
    exact min_le_left _ _
  · show 0 ≤ max 0 (s.resilience_score - 10)
    exact le_max_left _ _
  · show 0 ≤ max 0 (s.current_focus_score - 15)
    exact le_max_left _ _
  · show max 0 (s.current_focus_score - 15) ≤ 100
    exact max_le (by norm_num) (by linarith)
  · unfold decayTick
    split_ifs with h1 h2
    · exact ⟨hr, hf0, hf1⟩
    · cases hl : s.last_decay_check with
      | none => exact ⟨hr, hf0, hf1⟩
      | some last =>
        show ScoreInv (if now - last ≥ 60 then
          { s with resilience_score := max 0 (s.resilience_score - Int.fdiv (now - last) 60)
                   last_decay_check := some now }
          else s)
        split_ifs with h3
        · exact ⟨le_max_left _ _, hf0, hf1⟩
        · exact ⟨hr, hf0, hf1⟩
    · exact ⟨hr, hf0, hf1⟩
  · exact ⟨le_max_left _ _, hf0, hf1⟩
  · unfold startSession
    split_ifs with h1
    · exact ⟨hr, hf0, hf1⟩
    · exact ⟨le_refl 0, hf0, hf1⟩
  · unfold autoStartFlow
    split_ifs with h1
    · exact ⟨hr, hf0, hf1⟩
    · exact ⟨le_refl 0, hf0, hf1⟩

/-- Witness for C5: the initial state satisfies the invariant, and so does the
state after an "OPEN ANYWAY" choice on it. -/
theorem C5_score_bounds_witness :
    ScoreInv FlowState.init ∧ ScoreInv (handleBreak FlowState.init none none 0) := by
  have hinv : ScoreInv FlowState.init := by
    refine ⟨le_refl 0, ?_, ?_⟩ <;> norm_num [FlowState.init]
  exact ⟨hinv, (C5_score_bounds FlowState.init none none 0 0 hinv).2.1⟩

/-- A running session with a decay record created at time 0. -/
def decayState : FlowState :=
  { FlowState.init with
      is_running := true
      start_time := some 0
      resilience_score := 10
      current_distracting_app := some "instagram.exe"
      distracting_start_time := some 0
      last_decay_check := some 0 }

/-- C6 counterexample: a decay tick 30 s after the last decay check leaves the
state — in particular the last-check timestamp — completely unchanged, whereas
the claim says each tick advances the last-check timestamp. -/
theorem C6_counterexample :
    decayTick decayState 30 = decayState ∧
      (decayTick decayState 30).last_decay_check = some 0 ∧
      (decayTick decayState 30).last_decay_check ≠ some 30 := by
  decide

/-- C6 (amended): a decay tick at least one whole minute after the last check
decrements resilience by exactly `⌊elapsed/60⌋` (floored at 0) and advances the
last-check timestamp; a tick less than a minute after the last check changes
nothing.  A focus change to a productive-classified window (process not on the
blocked list) clears the decay record — not merely pauses it — and once the
record is cleared a tick applies no further decay. -/
theorem C6_decay_amended (s : FlowState) (cfg : Config) (title process_name : String)
    (now last : Int) (hrun : s.is_running = true) :
    (optStrTruthy s.current_distracting_app = true →
      s.distracting_start_time.isSome = true →
      s.last_decay_check = some last →
      (60 ≤ now - last →
        decayTick s now =
          { s with
              resilience_score := max 0 (s.resilience_score - Int.fdiv (now - last) 60)
              last_decay_check := some now }) ∧
      (now - last < 60 → decayTick s now = s)) ∧
    (cfg.productive_keywords.any (fun k => strHasSub (lowerStr title) k) = true →
      lowerStr process_name ∉ cfg.blocked_apps.map lowerStr →
      optStrTruthy s.current_distracting_app = true →
      ((onWindowChange cfg s title process_name now).1.current_distracting_app = none ∧
        (onWindowChange cfg s title process_name now).1.distracting_start_time = none ∧
        (onWindowChange cfg s title process_name now).1.last_decay_check = none)) ∧
    (∀ s' : FlowState, s'.current_distracting_app = none → decayTick s' now = s') := by
  refine ⟨?_, ?_, ?_⟩
  · intro happ hst hlast
    constructor
    · intro h60
      simp [decayTick, hrun, happ, hst, hlast, h60, ge_iff_le]
    · intro hlt
      simp [decayTick, hrun, happ, hst, hlast]
      intro hc
      omega
  · intro hprod hnb happ
    simp only [onWindowChange, hrun]
    simp [hprod, hnb, happ, triggerIntervention, blockerShow]
    split_ifs <;> simp
  · intro s' h
    unfold decayTick
    rw [h]
    split_ifs with h1 h2
    · rfl
    · simp [optStrTruthy] at h2
    · rfl

/-- Witness for the amended C6: a tick 150 s after the last check subtracts
`⌊150/60⌋ = 2` resilience and advances the timestamp to 150. -/
theorem C6_decay_amended_witness :
    decayTick decayState 150 =
      { decayState with resilience_score := 8, last_decay_check := some 150 } := by
  have h :=
    ((C6_decay_amended decayState defaultCfg "" "" 150 0 rfl).1 rfl rfl rfl).1 (by norm_num)
  rw [h]
  decide

/-- A running session whose blocker overlay is currently active. -/
def blockerActiveState : FlowState :=
  { FlowState.init with
      is_running := true
      start_time := some 0
      blocker_active := true }

/-- C7 counterexample: triggering an intervention while the blocker is active
shows no overlay, but the state is not left unchanged: the distraction count
goes from 0 to 1. -/
theorem C7_counterexample :
    (triggerIntervention blockerActiveState).1 = false ∧
      (triggerIntervention blockerActiveState).2.distraction_count = 1 ∧
      blockerActiveState.distraction_count = 0 ∧
      (triggerIntervention blockerActiveState).2 ≠ blockerActiveState := by
  decide

/-- C7 (amended): while the blocker is already active, `trigger_intervention`
shows no second overlay and leaves everything unchanged except that the
distraction count is still incremented. -/
theorem C7_no_second_overlay_amended (s : FlowState) (h : s.blocker_active = true) :
    (triggerIntervention s).1 = false ∧
      (triggerIntervention s).2 =
        { s with distraction_count := s.distraction_count + 1 } := by
  simp [triggerIntervention, blockerShow, h]

/-- Witness for the amended C7 at a concrete active-blocker state. -/
theorem C7_no_second_overlay_amended_witness :
    (triggerIntervention blockerActiveState).1 = false ∧
      (triggerIntervention blockerActiveState).2 =
        { blockerActiveState with distraction_count := 1 } := by
  have h := C7_no_second_overlay_amended blockerActiveState rfl
  exact ⟨h.1, h.2.trans (by decide)⟩

/-- An idle state carrying a resilience score of 20. -/
def idleResilienceState : FlowState :=
  { FlowState.init with resilience_score := 20 }

/-- C8 counterexample: with no session running, the external penalty is applied
anyway — resilience drops from 20 to 5 instead of being left unchanged. -/
theorem C8_counterexample :
    idleResilienceState.is_running = false ∧
      (applyForcefulTerminationPenalty idleResilienceState 15).2.resilience_score = 5 ∧
      (applyForcefulTerminationPenalty idleResilienceState 15).2.resilience_score ≠
        idleResilienceState.resilience_score := by
  decide

/-- C8 (amended): the external-penalty operation applies its penalty
unconditionally, whether or not a session is running: it sets resilience to
`max 0 (resilience - amount)`, changes nothing else, and reports the new
score. -/
theorem C8_penalty_amended (s : FlowState) (amt : Int) :
    (applyForcefulTerminationPenalty s amt).2 =
        { s with resilience_score := max 0 (s.resilience_score - amt) } ∧
      (applyForcefulTerminationPenalty s amt).1 =
        ⟨amt, max 0 (s.resilience_score - amt)⟩ := by
  exact ⟨rfl, rfl⟩

/-- A running session with the pending close-tab flag set. -/
def pendingCloseState : FlowState :=
  { FlowState.init with
      is_running := true
      start_time := some 0
      pending_close_tab := true }

/-- C9 counterexample: during a running session with the pending close-tab flag
set, `on_browser_activity` returns the status `wait_for_break`, which lies
outside the claimed three-element status set. -/
theorem C9_counterexample :
    (recordBrowserActivity defaultCfg pendingCloseState "https://example.com").1 =
        BrowserStatus.wait_for_break ∧
      BrowserStatus.wait_for_break ≠ BrowserStatus.ignored ∧
      BrowserStatus.wait_for_break ≠ BrowserStatus.recorded ∧
      BrowserStatus.wait_for_break ≠ BrowserStatus.intervention_triggered := by
  decide

/-- C9 (amended): the status is drawn from the four-element set
{ignored, wait_for_break, intervention_triggered, recorded}: ignored when no
session runs, wait_for_break when running with the pending close-tab flag set,
intervention_triggered when running without the flag and a configured
distracting keyword occurs in the URL, and recorded otherwise. -/
theorem C9_browser_status_amended (cfg : Config) (s : FlowState) (url : String) :
    (s.is_running = false →
      recordBrowserActivity cfg s url = (BrowserStatus.ignored, s)) ∧
    (s.is_running = true → s.pending_close_tab = true →
      (recordBrowserActivity cfg s url).1 = BrowserStatus.wait_for_break) ∧
    (s.is_running = true → s.pending_close_tab = false →
      cfg.distracting_keywords.any (fun d => strHasSub url d) = true →
      (recordBrowserActivity cfg s url).1 = BrowserStatus.intervention_triggered) ∧
    (s.is_running = true → s.pending_close_tab = false →
      cfg.distracting_keywords.any (fun d => strHasSub url d) = false →
      (recordBrowserActivity cfg s url).1 = BrowserStatus.recorded) := by
  refine ⟨?_, ?_, ?_, ?_⟩
  · intro h1
    simp [recordBrowserActivity, h1]
  · intro h1 h2
    simp [recordBrowserActivity, h1, h2]
  · intro h1 h2 h3
    simp [recordBrowserActivity, h1, h2, h3]
  · intro h1 h2 h3
    simp [recordBrowserActivity, h1, h2, h3]

/-- Witness for the amended C9: idle gives `ignored`; a running session with a
distracting URL gives `intervention_triggered`. -/
theorem C9_browser_status_amended_witness :
    (recordBrowserActivity defaultCfg FlowState.init "https://twitter.com/home").1 =
        BrowserStatus.ignored ∧
      (recordBrowserActivity defaultCfg runningState "https://twitter.com/home").1 =
        BrowserStatus.intervention_triggered := by
  constructor
  · exact congrArg Prod.fst
      ((C9_browser_status_amended defaultCfg FlowState.init "https://twitter.com/home").1 rfl)
  · exact (C9_browser_status_amended defaultCfg runningState
      "https://twitter.com/home").2.2.1 rfl rfl (by decide)

/-- An idle state whose focus score was already penalized down to 40. -/
def penalizedFocusState : FlowState :=
  { FlowState.init with current_focus_score := 40 }

/-- C10: neither start path ever resets the focus score — a new session starts
with whatever focus score the process holds (100 only in the pristine initial
state), and the focus bonus of a later stop is computed from that carried-over
score. -/
theorem C10_focus_carries_over (s : FlowState) (t1 t2 : Int) (h : s.is_running = false) :
    (startSession s t1).2.current_focus_score = s.current_focus_score ∧
      (autoStartFlow s t1).current_focus_score = s.current_focus_score ∧
      FlowState.init.current_focus_score = 100 ∧
      stopFocusBonus (stopSession (startSession s t1).2 t2).1 =
        some ⌊max 0 s.current_focus_score / 10⌋ := by
  refine ⟨?_, ?_, rfl, ?_⟩
  · simp [startSession, h]
  · simp [autoStartFlow, h]
  · simp [startSession, h, stopSession, stopFocusBonus]

/-- Witness for C10: a session started with carried-over focus 40 stops with
focus bonus `⌊40/10⌋ = 4`. -/
theorem C10_focus_carries_over_witness :
    (startSession penalizedFocusState 0).2.current_focus_score = 40 ∧
      stopFocusBonus (stopSession (startSession penalizedFocusState 0).2 600).1 =
        some 4 := by
  have h := C10_focus_carries_over penalizedFocusState 0 600 rfl
  have hf : ⌊max 0 penalizedFocusState.current_focus_score / 10⌋ = (4 : Int) := by
    show ⌊max 0 (40 : ℚ) / 10⌋ = 4
    norm_num
  exact ⟨h.1.trans rfl, h.2.2.2.trans (by rw [hf])⟩
